import Mathlib

/-!
Verification of the session-scoped conversational-retrieval engine of the
customer_service_bot repository.

The development shallowly embeds the two source modules the claims are about:

* `src/chatbot.py` — `CustomerServiceBot`: per-session memories and
  conversational chains, the `chat` turn orchestration, history retrieval and
  clearing.  The Python object's mutable `self` becomes explicit state passing
  on a `CustomerServiceBot` structure; the `memories` and
  `conversation_chains` dicts become association lists (insertion position is
  unobservable through lookup, so new keys are consed at the front).  The
  external LLM/chain invocation is an explicit `GenOutcome` parameter: the
  framework chain call either returns an answer (and, on the retrieval chain,
  source documents) after appending the user and assistant messages to the
  session memory, or raises — which the embedding models as `GenOutcome.failure`
  reaching the `except` branch of `chat` with no memory append (the framework
  saves context only after a successful chain run).

* `src/build_knowledge_base.py` — `KnowledgeBaseBuilder`: document loading
  from a directory, the sample-corpus fallback, and chunking.  The filesystem
  is a list of `FSFile` entries (the `rglob` enumeration); each file carries
  the outcome its configured loader would produce (`none` models a loader
  exception).
-/

/-! ## Settings (src/config.py defaults used by the modelled code) -/

/-- The business-configuration fields of `config.Settings` that the modelled
code reads, with their defaults from `src/config.py`. -/
structure Settings where
  company_name : String
  support_email : String
  business_hours : String
deriving DecidableEq

/-- `get_settings()` with no environment overrides (`src/config.py`). -/
def default_settings : Settings :=
  { company_name := "Your Company"
  , support_email := "support@yourcompany.com"
  , business_hours := "Monday-Friday, 9 AM - 5 PM EST" }

/-! ## Documents (metadata attached in `load_documents`, spec §3) -/

/-- A loaded document: page content plus the `source` and `file_type`
metadata attached by `KnowledgeBaseBuilder.load_documents`. -/
structure Document where
  page_content : String
  source : String
  file_type : String
deriving DecidableEq

/-! ## Chat messages and session state (src/chatbot.py) -/

/-- A message held in a session's `ConversationBufferMemory.chat_memory`.
`get_conversation_history` recognises `HumanMessage` and `AIMessage` by
`isinstance` and skips anything else, so a third constructor keeps that
filter observable. -/
inductive ChatMessage where
  | human (content : String)
  | ai (content : String)
  | system (content : String)
deriving DecidableEq

/-- One history entry as returned by `get_conversation_history`:
a `{"role": ..., "content": ...}` dict. -/
structure HistoryEntry where
  role : String
  content : String
deriving DecidableEq

/-- Association-list lookup, modelling Python dict indexing /
`key in dict`. -/
def lookupSession {α : Type} : List (String × α) → String → Option α
  | [], _ => none
  | (k, v) :: rest, sid => if k = sid then some v else lookupSession rest sid

/-- Replace the value stored at a key (models mutating `dict[key]` in
place, e.g. `memory.clear()`); no-op when the key is absent. -/
def setSession {α : Type} : List (String × α) → String → α → List (String × α)
  | [], _, _ => []
  | (k, w) :: rest, sid, v =>
    if k = sid then (k, v) :: rest else (k, w) :: setSession rest sid v

/-- Apply a function to the value stored at a key; no-op when the key is
absent. -/
def updateSession {α : Type} : List (String × α) → String → (α → α) → List (String × α)
  | [], _, _ => []
  | (k, w) :: rest, sid, f =>
    if k = sid then (k, f w) :: rest else (k, w) :: updateSession rest sid f

/-- Remove a key (models `del dict[key]`). -/
def removeSession {α : Type} : List (String × α) → String → List (String × α)
  | [], _ => []
  | (k, v) :: rest, sid =>
    if k = sid then removeSession rest sid else (k, v) :: removeSession rest sid

/-- The state of a `CustomerServiceBot` (`src/chatbot.py`):
`vector_store` records whether `_load_vector_store` produced a store
(`self.vector_store is not None`); `memories` maps a session id to the
messages of its `ConversationBufferMemory`; `conversation_chains` maps a
session id to its chain, recorded as the flag "built with a retriever"
(`ConversationalRetrievalChain` vs plain `ConversationChain`). -/
structure CustomerServiceBot where
  settings : Settings
  vector_store : Bool
  memories : List (String × List ChatMessage)
  conversation_chains : List (String × Bool)
deriving DecidableEq

/-- The state `CustomerServiceBot.__init__` produces: default settings, empty
`memories` and `conversation_chains` dicts; `vs` records whether the vector
store loaded. -/
def mkBot (vs : Bool) : CustomerServiceBot :=
  { settings := default_settings
  , vector_store := vs
  , memories := []
  , conversation_chains := [] }

/-- `CustomerServiceBot._get_or_create_memory` (src/chatbot.py:109-118):
allocate an empty `ConversationBufferMemory` on first use of a session id. -/
def CustomerServiceBot.get_or_create_memory
    (bot : CustomerServiceBot) (session_id : String) : CustomerServiceBot :=
  if (lookupSession bot.memories session_id).isSome then bot
  else { bot with memories := (session_id, ([] : List ChatMessage)) :: bot.memories }

/-- `CustomerServiceBot._get_or_create_chain` (src/chatbot.py:120-146):
on first use, create the session memory, then a retrieval chain when a
vector store is present and a plain conversation chain otherwise. -/
def CustomerServiceBot.get_or_create_chain
    (bot : CustomerServiceBot) (session_id : String) : CustomerServiceBot :=
  if (lookupSession bot.conversation_chains session_id).isSome then bot
  else
    let b := bot.get_or_create_memory session_id
    { b with conversation_chains := (session_id, b.vector_store) :: b.conversation_chains }

/-- Conversation roles of a transcript turn (spec §3: `Turn {role: user|assistant, ...}`). -/
inductive Role where
  | user
  | assistant
deriving DecidableEq

/-- The role string used in history entries. -/
def Role.toRoleString : Role → String
  | .user => "user"
  | .assistant => "assistant"

/-- A transcript turn (spec §3). -/
structure Turn where
  role : Role
  content : String
deriving DecidableEq

/-- The framework message a turn is stored as: user turns become
`HumanMessage`, assistant turns `AIMessage`. -/
def Turn.toMessage : Turn → ChatMessage
  | ⟨.user, c⟩ => .human c
  | ⟨.assistant, c⟩ => .ai c

/-- Modelled from the spec: `append_turn(session_id, role, content)` (spec
§4.3).  The repository delegates transcript appends to the framework memory
(`ConversationBufferMemory.chat_memory.add_message`); this is the single
append that `chat`'s save step performs twice per successful turn. -/
def CustomerServiceBot.append_turn
    (bot : CustomerServiceBot) (session_id : String) (t : Turn) : CustomerServiceBot :=
  { bot with memories := updateSession bot.memories session_id (fun ms => ms ++ [t.toMessage]) }

/-- Append a list of turns in order. -/
def CustomerServiceBot.append_turns
    (bot : CustomerServiceBot) (session_id : String) (ts : List Turn) : CustomerServiceBot :=
  ts.foldl (fun b t => b.append_turn session_id t) bot

/-- The framework's `memory.save_context` step after a successful chain run:
append the user question and then the assistant answer to the session
memory. -/
def CustomerServiceBot.save_context
    (bot : CustomerServiceBot) (session_id question answer : String) : CustomerServiceBot :=
  (bot.append_turn session_id ⟨.user, question⟩).append_turn session_id ⟨.assistant, answer⟩

/-- The text of `_get_error_response` before the interpolated support
email. -/
def error_preamble : String :=
  "I apologize, but I\x27m experiencing technical difficulties. Please try again in a moment, or contact our support team at "

/-- The text of `_get_error_response` after the interpolated support email. -/
def error_tail : String :=
  " for immediate assistance."

/-- `CustomerServiceBot._get_error_response` (src/chatbot.py:204-210). -/
def CustomerServiceBot.get_error_response (bot : CustomerServiceBot) : String :=
  error_preamble ++ bot.settings.support_email ++ error_tail

/-- One source-attribution entry of `chat`'s `source_info`:
`{"content": doc.page_content, "metadata": doc.metadata}`. -/
structure SourceInfo where
  content : String
  source : String
  file_type : String
deriving DecidableEq

/-- Build a `source_info` entry from a retrieved document. -/
def Document.toSourceInfo (d : Document) : SourceInfo :=
  ⟨d.page_content, d.source, d.file_type⟩

/-- Outcome of the external chain/LLM invocation inside `chat`:
`success answer source_documents` models the chain returning (for the plain
conversation chain the `source_documents` are ignored); `failure` models any
exception raised during the turn, caught by `chat`'s `except` branch. -/
inductive GenOutcome where
  | success (answer : String) (source_documents : List Document)
  | failure
deriving DecidableEq

/-- `CustomerServiceBot.chat` (src/chatbot.py:148-202), with the external
generation call made explicit as `outcome`.  The unused `metadata` argument
of the source is elided.  On success the framework chain appends the user
and assistant messages to the session memory (`save_context`); on an
exception nothing is appended and the user-safe error response is returned —
`chat` itself never raises.  Returns `((response, source_info), new_state)`. -/
def CustomerServiceBot.chat
    (bot : CustomerServiceBot) (message session_id : String) (outcome : GenOutcome) :
    (String × Option (List SourceInfo)) × CustomerServiceBot :=
  let b := bot.get_or_create_chain session_id
  match outcome with
  | .failure => ((b.get_error_response, none), b)
  | .success answer sources =>
    let b2 := b.save_context session_id message answer
    if b.vector_store then
      ((answer, if sources.isEmpty then none else some (sources.map Document.toSourceInfo)), b2)
    else
      ((answer, none), b2)

/-- `CustomerServiceBot.get_conversation_history`'s per-message conversion
(src/chatbot.py:221-226): `HumanMessage` ↦ user entry, `AIMessage` ↦
assistant entry, anything else skipped. -/
def messageToEntry : ChatMessage → Option HistoryEntry
  | .human c => some ⟨"user", c⟩
  | .ai c => some ⟨"assistant", c⟩
  | .system _ => none

/-- `CustomerServiceBot.get_conversation_history` (src/chatbot.py:212-227). -/
def CustomerServiceBot.get_conversation_history
    (bot : CustomerServiceBot) (session_id : String) : List HistoryEntry :=
  match lookupSession bot.memories session_id with
  | none => []
  | some msgs => msgs.filterMap messageToEntry

/-- `CustomerServiceBot.clear_conversation` (src/chatbot.py:229-240): clear
the session memory if present, drop the cached chain if present, and return
`True` — the `except` branch is unreachable here since clearing an in-memory
dict entry raises nothing, so the function returns `True` unconditionally. -/
def CustomerServiceBot.clear_conversation
    (bot : CustomerServiceBot) (session_id : String) : Bool × CustomerServiceBot :=
  let b1 :=
    if (lookupSession bot.memories session_id).isSome then
      { bot with memories := setSession bot.memories session_id [] }
    else bot
  let b2 := { b1 with conversation_chains := removeSession b1.conversation_chains session_id }
  (true, b2)

/-! ## Knowledge-base builder (src/build_knowledge_base.py) -/

/-- One entry the `rglob` walk of the documents directory yields.  `name` is
the path string; `is_file` is `Path.is_file()`; `loadResult` is what the
configured loader for the file would produce: `some texts` for the
`page_content`s of the documents `loader.load()` returns, `none` when the
loader raises. -/
structure FSFile where
  name : String
  is_file : Bool
  loadResult : Option (List String)
deriving DecidableEq

/-- Index of the last occurrence of a character, as `str.rfind` finds it. -/
def lastIndexOf (c : Char) : List Char → Option Nat
  | [] => none
  | x :: xs =>
    match lastIndexOf c xs with
    | some i => some (i + 1)
    | none => if x = c then some 0 else none

/-- `pathlib.PurePath.suffix`: the final dot-extension of the name, with the
dot; empty when the name has no inner dot (a leading or trailing dot does
not count). -/
def pySuffix (name : String) : String :=
  let cs := name.data
  match lastIndexOf '.' cs with
  | some i => if 0 < i ∧ i < cs.length - 1 then String.mk (cs.drop i) else ""
  | none => ""

/-- `str.lower` on the characters of a string. -/
def lowerString (s : String) : String :=
  String.mk (s.data.map Char.toLower)

/-- The keys of the `loaders` dict (src/build_knowledge_base.py:47-52):
the file types `load_documents` recognises. -/
def supported_extensions : List String :=
  [".txt", ".pdf", ".csv", ".md"]

/-- The contribution of one walked entry to `load_documents`'s result:
directories are skipped, files with an unrecognised (lowercased) extension
are skipped, a loader error is logged and skipped, and a successful load
contributes one `Document` per loaded text with `source` and `file_type`
metadata attached. -/
def load_file (f : FSFile) : List Document :=
  if f.is_file then
    let extension := lowerString (pySuffix f.name)
    if extension ∈ supported_extensions then
      match f.loadResult with
      | some texts =>
        texts.map (fun t => { page_content := t, source := f.name, file_type := extension })
      | none => []
    else []
  else []

/-- The loop of `load_documents` over the walked entries: per-file
contributions concatenated in walk order. -/
def load_files : List FSFile → List Document
  | [] => []
  | f :: fs => load_file f ++ load_files fs

/-- `KnowledgeBaseBuilder.load_documents` (src/build_knowledge_base.py:37-76):
`none` models a directory that does not exist (empty result, no error);
otherwise the walk loop runs. -/
def load_documents : Option (List FSFile) → List Document
  | none => []
  | some files => load_files files

/-! ## Sample corpus (src/build_knowledge_base.py:117-184) -/

/-- The `company_info.txt` value of the `sample_content` dict. -/
def company_info_raw : String :=
  "\nCompany Name: Your Company\nFounded: 2020\nMission: To provide excellent customer service and innovative solutions.\n            \nBusiness Hours: Monday-Friday, 9 AM - 5 PM EST\nSupport Email: support@yourcompany.com\nPhone: 1-800-555-0123\n            \nWe are committed to helping our customers succeed.\n"

/-- The `shipping_policy.txt` value of the `sample_content` dict. -/
def shipping_policy_raw : String :=
  "\nShipping Policy\n            \nStandard Shipping: 5-7 business days\nExpress Shipping: 2-3 business days\nOvernight Shipping: Next business day\n            \nFree shipping on orders over $50.\n            \nWe ship to all 50 states and internationally to select countries.\nTracking information is provided once your order ships.\n"

/-- The `return_policy.txt` value of the `sample_content` dict. -/
def return_policy_raw : String :=
  "\nReturn Policy\n            \nWe offer a 30-day return policy on most items.\n            \nTo be eligible for a return:\n- Item must be unused and in original packaging\n- Must have receipt or proof of purchase\n- Return must be initiated within 30 days of purchase\n            \nRefunds are processed within 5-7 business days.\n            \nSome items are non-returnable:\n- Perishable goods\n- Custom or personalized items\n- Digital products\n"

/-- The `faq.txt` value of the `sample_content` dict. -/
def faq_raw : String :=
  "\nFrequently Asked Questions\n            \nQ: How do I track my order?\nA: You can track your order using the tracking number sent to your email.\n            \nQ: What payment methods do you accept?\nA: We accept Visa, MasterCard, American Express, PayPal, and Apple Pay.\n            \nQ: Do you offer international shipping?\nA: Yes, we ship to select countries. Additional fees may apply.\n            \nQ: How do I change or cancel my order?\nA: Contact customer support within 24 hours of placing your order.\n            \nQ: What is your warranty policy?\nA: Most products come with a 1-year manufacturer warranty.\n"

/-- Python `str.strip()`: remove leading and trailing whitespace. -/
def pyStrip (s : String) : String :=
  String.mk (((s.data.dropWhile Char.isWhitespace).reverse.dropWhile Char.isWhitespace).reverse)

/-- The `sample_content` dict of `_create_sample_documents`, in insertion
order. -/
def sample_content : List (String × String) :=
  [ ("company_info.txt", company_info_raw)
  , ("shipping_policy.txt", shipping_policy_raw)
  , ("return_policy.txt", return_policy_raw)
  , ("faq.txt", faq_raw) ]

/-- The files `_create_sample_documents` writes: each sample text is stripped
of surrounding whitespace (`content.strip()`) and written to its filename;
`TextLoader` then reads each such `.txt` file back as one document whose
`page_content` is exactly the file text. -/
def sample_files : List FSFile :=
  sample_content.map (fun p => { name := p.1, is_file := true, loadResult := some [pyStrip p.2] })

/-- `KnowledgeBaseBuilder._create_sample_documents` (src/build_knowledge_base.py:117-184):
write the sample corpus into the documents directory, leaving any existing
entries in place. -/
def create_sample_documents (files : List FSFile) : List FSFile :=
  files ++ sample_files

/-! ## Chunking -/

/-- A chunk derived from one document (spec §3): bounded text plus the
metadata inherited from its document. -/
structure Chunk where
  text : String
  source : String
  file_type : String
deriving DecidableEq

/-- Fuel-indexed sliding-window chunking: emit the whole text when it fits in
one chunk, otherwise emit the first `size` characters and continue `step`
characters further, so consecutive chunks share `size - step` characters.
The fuel only bounds recursion; with fuel ≥ the text length and `step > 0`
it is never exhausted. -/
def chunkText (size step : Nat) : Nat → List Char → List (List Char)
  | 0, s => [s]
  | fuel + 1, s =>
    if s.length ≤ size then [s]
    else s.take size :: chunkText size step fuel (s.drop step)

/-- Modelled from the spec: `split(documents, chunk_size, overlap)` (spec
§4.1).  The repository delegates splitting to the third-party
`RecursiveCharacterTextSplitter(chunk_size=1000, chunk_overlap=200,
length_function=len)`, whose code is not part of this repository; the model
follows the spec's contract — chunks respect the configured maximum length
and share `overlap` characters with the immediately preceding chunk of the
same document, deterministically. -/
def split_text (chunk_size chunk_overlap : Nat) (text : String) : List String :=
  (chunkText chunk_size (chunk_size - chunk_overlap) (text.data.length + 1) text.data).map
    (fun cs => String.mk cs)

/-- Split one document into chunks carrying its metadata. -/
def split_document (chunk_size chunk_overlap : Nat) (d : Document) : List Chunk :=
  (split_text chunk_size chunk_overlap d.page_content).map
    (fun t => { text := t, source := d.source, file_type := d.file_type })

/-- `self.text_splitter.split_documents` with the parameters fixed in
`KnowledgeBaseBuilder.__init__` (src/build_knowledge_base.py:31-35):
`chunk_size=1000`, `chunk_overlap=200`. -/
def split_documents (docs : List Document) : List Chunk :=
  docs.flatMap (split_document 1000 200)

/-! ## Building the vector store -/

/-- The observable outcome of `build_vector_store`: the final contents of the
documents directory, the documents that were loaded, and the chunks the
vector store is built from (`Chroma.from_documents` indexes exactly
`splits`). -/
structure BuildResult where
  dir_contents : List FSFile
  documents : List Document
  chunks : List Chunk
deriving DecidableEq

/-- `KnowledgeBaseBuilder.build_vector_store` (src/build_knowledge_base.py:78-115):
`mkdir` ensures the documents directory exists (an absent directory becomes
an empty one); when the first load yields no documents, the sample corpus is
seeded and the directory re-loaded; the loaded documents are split into
chunks and indexed. -/
def build_vector_store (dir : Option (List FSFile)) : BuildResult :=
  let files0 := dir.getD []
  let documents0 := load_documents (some files0)
  let files1 := if documents0.isEmpty then create_sample_documents files0 else files0
  let documents := if documents0.isEmpty then load_documents (some files1) else documents0
  let splits := split_documents documents
  { dir_contents := files1, documents := documents, chunks := splits }

/-! ## Helper lemmas -/

/-- Updating a key changes exactly the value looked up at that key. -/
theorem lookup_updateSession_self {α : Type} (l : List (String × α)) (sid : String) (f : α → α) :
    lookupSession (updateSession l sid f) sid = (lookupSession l sid).map f := by
  induction l with
  | nil => rfl
  | cons p rest ih =>
    obtain ⟨k, w⟩ := p
    by_cases h : k = sid
    · simp [updateSession, lookupSession, h]
    · simp [updateSession, lookupSession, h, ih]

/-- Setting a key changes exactly the value looked up at that key. -/
theorem lookup_setSession_self {α : Type} (l : List (String × α)) (sid : String) (v : α) :
    lookupSession (setSession l sid v) sid = (lookupSession l sid).map (fun _ => v) := by
  induction l with
  | nil => rfl
  | cons p rest ih =>
    obtain ⟨k, w⟩ := p
    by_cases h : k = sid
    · simp [setSession, lookupSession, h]
    · simp [setSession, lookupSession, h, ih]

/-- `_get_or_create_chain` never changes the settings. -/
theorem settings_get_or_create_chain (bot : CustomerServiceBot) (sid : String) :
    (bot.get_or_create_chain sid).settings = bot.settings := by
  by_cases h1 : (lookupSession bot.conversation_chains sid).isSome
  · simp [CustomerServiceBot.get_or_create_chain, h1]
  · by_cases h2 : (lookupSession bot.memories sid).isSome <;>
      simp [CustomerServiceBot.get_or_create_chain, CustomerServiceBot.get_or_create_memory, h1, h2]

/-- `_get_or_create_chain` never changes the vector store. -/
theorem vector_store_get_or_create_chain (bot : CustomerServiceBot) (sid : String) :
    (bot.get_or_create_chain sid).vector_store = bot.vector_store := by
  by_cases h1 : (lookupSession bot.conversation_chains sid).isSome
  · simp [CustomerServiceBot.get_or_create_chain, h1]
  · by_cases h2 : (lookupSession bot.memories sid).isSome <;>
      simp [CustomerServiceBot.get_or_create_chain, CustomerServiceBot.get_or_create_memory, h1, h2]

/-- `_get_or_create_chain` leaves every session's visible history
unchanged: it at most installs an empty memory. -/
theorem history_get_or_create_chain (bot : CustomerServiceBot) (sid sid' : String) :
    (bot.get_or_create_chain sid).get_conversation_history sid'
      = bot.get_conversation_history sid' := by
  by_cases h1 : (lookupSession bot.conversation_chains sid).isSome
  · simp [CustomerServiceBot.get_or_create_chain, h1]
  · by_cases h2 : (lookupSession bot.memories sid).isSome
    · simp [CustomerServiceBot.get_or_create_chain, CustomerServiceBot.get_or_create_memory,
        h1, h2, CustomerServiceBot.get_conversation_history]
    · by_cases h3 : sid = sid'
      · subst h3
        have hnone : lookupSession bot.memories sid = none := by
          cases hm : lookupSession bot.memories sid with
          | none => rfl
          | some v => rw [hm] at h2; simp at h2
        simp [CustomerServiceBot.get_or_create_chain, CustomerServiceBot.get_or_create_memory,
          h1, h2, CustomerServiceBot.get_conversation_history, lookupSession, hnone]
      · simp [CustomerServiceBot.get_or_create_chain, CustomerServiceBot.get_or_create_memory,
          h1, h2, CustomerServiceBot.get_conversation_history, lookupSession, h3]

/-- Appending turns extends exactly the target session's message list, in
order. -/
theorem lookup_append_turns (bot : CustomerServiceBot) (sid : String) (ts : List Turn) :
    lookupSession (bot.append_turns sid ts).memories sid
      = (lookupSession bot.memories sid).map (fun ms => ms ++ ts.map Turn.toMessage) := by
  induction ts generalizing bot with
  | nil => simp [CustomerServiceBot.append_turns]
  | cons t ts ih =>
    have hstep : bot.append_turns sid (t :: ts) = (bot.append_turn sid t).append_turns sid ts := by
      simp [CustomerServiceBot.append_turns]
    rw [hstep, ih, CustomerServiceBot.append_turn]
    simp only [lookup_updateSession_self]
    cases lookupSession bot.memories sid <;> simp

/-- Converting user/assistant turns to framework messages and back through
the history filter is the identity on roles and contents. -/
theorem filterMap_messageToEntry (ts : List Turn) :
    (ts.map Turn.toMessage).filterMap messageToEntry
      = ts.map (fun t => { role := t.role.toRoleString, content := t.content }) := by
  induction ts with
  | nil => rfl
  | cons t ts ih =>
    obtain ⟨r, c⟩ := t
    cases r <;> simp [Turn.toMessage, messageToEntry, Role.toRoleString, ih]

/-- After `_get_or_create_memory` on a fresh or empty session, the session's
message list is empty. -/
theorem get_or_create_memory_lookup (bot : CustomerServiceBot) (sid : String)
    (h : lookupSession bot.memories sid = none ∨ lookupSession bot.memories sid = some []) :
    lookupSession (bot.get_or_create_memory sid).memories sid = some [] := by
  cases h with
  | inl h => simp [CustomerServiceBot.get_or_create_memory, h, lookupSession]
  | inr h => simp [CustomerServiceBot.get_or_create_memory, h]

/-- A string's characters concatenate along string concatenation. -/
theorem string_data_append (a b : String) : (a ++ b).data = a.data ++ b.data := rfl

/-- `load_documents` distributes over directory concatenation. -/
theorem load_documents_append (a b : List FSFile) :
    load_documents (some (a ++ b)) = load_documents (some a) ++ load_documents (some b) := by
  induction a with
  | nil => simp [load_documents, load_files]
  | cons f fs ih =>
    simp only [load_documents] at ih ⊢
    simp [load_files, ih]

/-- Chunking never produces an empty chunk list. -/
theorem chunkText_ne_nil (size step fuel : Nat) (s : List Char) :
    chunkText size step fuel s ≠ [] := by
  cases fuel with
  | zero => simp [chunkText]
  | succ n =>
    by_cases h : s.length ≤ size <;> simp [chunkText, h]

/-- Splitting a document never produces an empty chunk list. -/
theorem split_document_ne_nil (cs co : Nat) (d : Document) :
    split_document cs co d ≠ [] := by
  simp only [split_document, split_text, ne_eq, List.map_eq_nil_iff]
  exact chunkText_ne_nil _ _ _ _

/-- Splitting a non-empty document list never produces an empty chunk
list. -/
theorem split_documents_ne_nil (docs : List Document) (h : docs ≠ []) :
    split_documents docs ≠ [] := by
  cases docs with
  | nil => exact absurd rfl h
  | cons d rest =>
    simp only [split_documents, List.flatMap_cons]
    intro hcontra
    exact split_document_ne_nil 1000 200 d (List.append_eq_nil.mp hcontra).1

/-! ## Claim theorems -/

/-- C1: the claim says `clear_session` returns `true` iff a session existed,
and in particular `false` on an unknown id.  The code disagrees:
`clear_conversation` (src/chatbot.py:229-240) returns `True` unconditionally,
so on a freshly constructed bot — where no session was ever created for the
id — clearing an unknown id still returns `true` (while raising no error). -/
theorem C1_clear_unknown_session_returns_true :
    lookupSession (mkBot false).memories ("unknown") = none
    ∧ lookupSession (mkBot false).conversation_chains ("unknown") = none
    ∧ ((mkBot false).clear_conversation ("unknown")).1 = true := by
  refine ⟨rfl, rfl, rfl⟩

/-- C2: when any step of processing a turn fails, `chat` returns the fixed
fallback message — which contains the configured support email — returns no
source attributions, does not raise (the model is total), and appends no
entry to the session transcript: `get_history` is unchanged by the failed
turn. -/
theorem C2_failed_turn_fallback_and_unchanged_history
    (bot : CustomerServiceBot) (message session_id : String) :
    (bot.chat message session_id .failure).1.1 = bot.get_error_response
    ∧ (∃ l r : List Char,
        l ++ bot.settings.support_email.data ++ r
          = (bot.chat message session_id .failure).1.1.data)
    ∧ (bot.chat message session_id .failure).1.2 = none
    ∧ ((bot.chat message session_id .failure).2).get_conversation_history session_id
        = bot.get_conversation_history session_id := by
  have hchat : bot.chat message session_id .failure
      = (((bot.get_or_create_chain session_id).get_error_response, none),
         bot.get_or_create_chain session_id) := rfl
  have herr : (bot.get_or_create_chain session_id).get_error_response
      = bot.get_error_response := by
    simp [CustomerServiceBot.get_error_response, settings_get_or_create_chain]
  refine ⟨?_, ?_, ?_, ?_⟩
  · rw [hchat]; exact herr
  · refine ⟨error_preamble.data, error_tail.data, ?_⟩
    rw [hchat]
    simp [CustomerServiceBot.get_error_response, string_data_append,
      settings_get_or_create_chain]
  · rw [hchat]
  · rw [hchat]
    exact history_get_or_create_chain bot session_id session_id

/-- C3: when no vector store is configured or loadable, a turn still
succeeds without retrieval: `chat` returns the generated answer itself and
`None` for the source attributions. -/
theorem C3_no_vector_store_turn_non_grounded
    (bot : CustomerServiceBot) (message session_id answer : String)
    (sources : List Document) (h : bot.vector_store = false) :
    (bot.chat message session_id (.success answer sources)).1 = (answer, none) := by
  have hb : (bot.get_or_create_chain session_id).vector_store = false := by
    rw [vector_store_get_or_create_chain]; exact h
  simp [CustomerServiceBot.chat, hb]

/-- Witness for C3 at a concrete bot without a vector store. -/
theorem C3_witness :
    (mkBot false).vector_store = false
    ∧ ((mkBot false).chat ("hi") ("s") (.success ("hello") [])).1 = ("hello", none) :=
  ⟨rfl, C3_no_vector_store_turn_non_grounded (mkBot false) ("hi") ("s") ("hello") [] rfl⟩

/-- C4: starting from a session with no prior messages, appending N turns
makes `get_history` return exactly N entries, in append order, with the
roles of the appended turns. -/
theorem C4_history_returns_appended_turns
    (bot : CustomerServiceBot) (session_id : String) (ts : List Turn)
    (h : lookupSession bot.memories session_id = none
        ∨ lookupSession bot.memories session_id = some []) :
    ((bot.get_or_create_memory session_id).append_turns session_id ts).get_conversation_history
        session_id
      = ts.map (fun t => { role := t.role.toRoleString, content := t.content })
    ∧ (((bot.get_or_create_memory session_id).append_turns session_id ts).get_conversation_history
        session_id).length = ts.length := by
  have hmem := get_or_create_memory_lookup bot session_id h
  have hlook := lookup_append_turns (bot.get_or_create_memory session_id) session_id ts
  rw [hmem] at hlook
  have hlook' : lookupSession
      ((bot.get_or_create_memory session_id).append_turns session_id ts).memories session_id
      = some (ts.map Turn.toMessage) := by
    rw [hlook]; simp
  have hhist : ((bot.get_or_create_memory session_id).append_turns session_id
      ts).get_conversation_history session_id
      = ts.map (fun t => { role := t.role.toRoleString, content := t.content }) := by
    simp only [CustomerServiceBot.get_conversation_history, hlook']
    exact filterMap_messageToEntry ts
  exact ⟨hhist, by rw [hhist]; simp⟩

/-- Witness for C4 on a fresh bot with two concrete turns. -/
theorem C4_witness :
    (lookupSession (mkBot false).memories ("s") = none
      ∨ lookupSession (mkBot false).memories ("s") = some [])
    ∧ (((mkBot false).get_or_create_memory ("s")).append_turns ("s")
        [⟨Role.user, "hi"⟩, ⟨Role.assistant, "hello"⟩]).get_conversation_history ("s")
      = [⟨"user", "hi"⟩, ⟨"assistant", "hello"⟩] := by
  refine ⟨Or.inl rfl, ?_⟩
  have h := (C4_history_returns_appended_turns (mkBot false) ("s")
    [⟨Role.user, "hi"⟩, ⟨Role.assistant, "hello"⟩] (Or.inl rfl)).1
  simpa using h

/-- C5: building the vector store over a directory holding zero loadable
documents seeds the built-in sample corpus (company info, shipping policy,
return policy, FAQ) into the documents directory and builds the index from
those seeded documents — never silently from an empty index. -/
theorem C5_empty_directory_seeds_sample_corpus
    (dir : Option (List FSFile))
    (h : load_documents (some (dir.getD [])) = []) :
    (build_vector_store dir).documents = load_documents (some sample_files)
    ∧ (build_vector_store dir).documents.map Document.source
        = ["company_info.txt", "shipping_policy.txt", "return_policy.txt", "faq.txt"]
    ∧ (build_vector_store dir).chunks = split_documents (load_documents (some sample_files))
    ∧ (build_vector_store dir).chunks ≠ [] := by
  have hsrc : (load_documents (some sample_files)).map Document.source
      = ["company_info.txt", "shipping_policy.txt", "return_policy.txt", "faq.txt"] := by
    rfl
  have hdocs : (build_vector_store dir).documents = load_documents (some sample_files) := by
    simp [build_vector_store, create_sample_documents, h, load_documents_append]
  have hchunks : (build_vector_store dir).chunks
      = split_documents ((build_vector_store dir).documents) := rfl
  have hne : load_documents (some sample_files) ≠ [] := by
    intro hnil
    rw [hnil] at hsrc
    simp at hsrc
  refine ⟨hdocs, by rw [hdocs]; exact hsrc, by rw [hchunks, hdocs], ?_⟩
  rw [hchunks, hdocs]
  exact split_documents_ne_nil _ hne

/-- Witness for C5 at the concrete empty directory. -/
theorem C5_witness :
    load_documents (some ((some ([] : List FSFile)).getD [])) = []
    ∧ (build_vector_store (some ([] : List FSFile))).documents.map Document.source
        = ["company_info.txt", "shipping_policy.txt", "return_policy.txt", "faq.txt"] :=
  ⟨rfl, (C5_empty_directory_seeds_sample_corpus (some []) rfl).2.1⟩

/-- C6: document loading is failing-soft per file — a file whose loader
raises contributes nothing, and the remaining files load exactly as if the
bad file were not present. -/
theorem C6_loading_failing_soft_per_file
    (pre post : List FSFile) (bad : FSFile) (hbad : bad.loadResult = none) :
    load_documents (some (pre ++ bad :: post)) = load_documents (some (pre ++ post)) := by
  have hfile : load_file bad = [] := by
    simp [load_file, hbad]
  induction pre with
  | nil => simp [load_documents, load_files, hfile]
  | cons f fs ih =>
    simp only [load_documents] at ih ⊢
    simp [load_files, ih]

/-- Witness for C6: a concrete directory with a broken PDF between two good
files. -/
theorem C6_witness :
    (⟨"broken.pdf", true, none⟩ : FSFile).loadResult = none
    ∧ load_documents (some
        [⟨"a.txt", true, some ["A"]⟩, ⟨"broken.pdf", true, none⟩, ⟨"b.md", true, some ["B"]⟩])
      = load_documents (some [⟨"a.txt", true, some ["A"]⟩, ⟨"b.md", true, some ["B"]⟩]) :=
  ⟨rfl, C6_loading_failing_soft_per_file [⟨"a.txt", true, some ["A"]⟩]
    [⟨"b.md", true, some ["B"]⟩] ⟨"broken.pdf", true, none⟩ rfl⟩

/-- C7: chunking is a deterministic function of its inputs — for any
parameters with overlap < size, splitting equal documents yields equal chunk
sequences (the model contains no randomness source). -/
theorem C7_chunking_deterministic
    (chunk_size chunk_overlap : Nat) (_h : chunk_overlap < chunk_size)
    (d1 d2 : Document) (heq : d1 = d2) :
    split_document chunk_size chunk_overlap d1 = split_document chunk_size chunk_overlap d2 := by
  rw [heq]

/-- Witness for C7 at the configured parameters (1000, 200) on a concrete
document. -/
theorem C7_witness :
    (200 < 1000 ∧ ((⟨"abcdef", "doc.txt", ".txt"⟩ : Document) = ⟨"abcdef", "doc.txt", ".txt"⟩))
    ∧ split_document 1000 200 ⟨"abcdef", "doc.txt", ".txt"⟩
        = split_document 1000 200 ⟨"abcdef", "doc.txt", ".txt"⟩ :=
  ⟨⟨by decide, rfl⟩, C7_chunking_deterministic 1000 200 (by decide) _ _ rfl⟩

/-- C8: for a session with at least one visible turn, clearing it makes a
subsequent `get_history` return the empty list. -/
theorem C8_clear_then_history_empty
    (bot : CustomerServiceBot) (session_id : String)
    (h : bot.get_conversation_history session_id ≠ []) :
    ((bot.clear_conversation session_id).2).get_conversation_history session_id = [] := by
  cases hm : lookupSession bot.memories session_id with
  | none =>
    exact absurd (by simp [CustomerServiceBot.get_conversation_history, hm]) h
  | some ms =>
    have hset : lookupSession (setSession bot.memories session_id ([] : List ChatMessage))
        session_id = some [] := by
      rw [lookup_setSession_self, hm]
      rfl
    simp [CustomerServiceBot.clear_conversation, hm,
      CustomerServiceBot.get_conversation_history, hset]

/-- Witness for C8: one successful turn, then clear, then empty history. -/
theorem C8_witness :
    (((mkBot false).chat ("hi") ("s") (.success ("hello") [])).2).get_conversation_history ("s")
      ≠ []
    ∧ (((((mkBot false).chat ("hi") ("s") (.success ("hello") [])).2).clear_conversation
        ("s")).2).get_conversation_history ("s") = [] :=
  ⟨by decide, C8_clear_then_history_empty
    (((mkBot false).chat ("hi") ("s") (.success ("hello") [])).2) ("s") (by decide)⟩

/-- C9: a turn for a previously-unknown session id creates the session
before generation runs, so even a failed turn leaves the id registered with
an empty transcript. -/
theorem C9_failed_turn_registers_empty_session
    (bot : CustomerServiceBot) (message session_id : String)
    (hmem : lookupSession bot.memories session_id = none)
    (hchain : lookupSession bot.conversation_chains session_id = none) :
    lookupSession ((bot.chat message session_id .failure).2).memories session_id
      = some ([] : List ChatMessage)
    ∧ ((bot.chat message session_id .failure).2).get_conversation_history session_id = [] := by
  have hchat : (bot.chat message session_id .failure).2 = bot.get_or_create_chain session_id :=
    rfl
  rw [hchat]
  constructor
  · simp [CustomerServiceBot.get_or_create_chain, CustomerServiceBot.get_or_create_memory,
      hmem, hchain, lookupSession]
  · simp [CustomerServiceBot.get_or_create_chain, CustomerServiceBot.get_or_create_memory,
      hmem, hchain, CustomerServiceBot.get_conversation_history, lookupSession]

/-- Witness for C9 on a fresh bot and an unknown session id. -/
theorem C9_witness :
    lookupSession (mkBot true).memories ("n") = none
    ∧ lookupSession (mkBot true).conversation_chains ("n") = none
    ∧ (lookupSession (((mkBot true).chat ("m") ("n") .failure).2).memories ("n")
        = some ([] : List ChatMessage)
      ∧ (((mkBot true).chat ("m") ("n") .failure).2).get_conversation_history ("n") = []) :=
  ⟨rfl, rfl, C9_failed_turn_registers_empty_session (mkBot true) ("m") ("n") rfl rfl⟩

/-- C10: only files whose lowercased extension is `.txt`, `.pdf`, `.csv` or
`.md` are considered — loading a directory equals loading just those files —
and loading a directory that does not exist returns the empty list. -/
theorem C10_extension_filter_and_missing_directory :
    load_documents none = []
    ∧ ∀ files : List FSFile,
        load_documents (some files)
          = load_documents (some (files.filter
              (fun f => f.is_file
                && decide (lowerString (pySuffix f.name) ∈ supported_extensions)))) := by
  refine ⟨rfl, ?_⟩
  intro files
  induction files with
  | nil => rfl
  | cons f fs ih =>
    simp only [load_documents] at ih ⊢
    by_cases h1 : f.is_file
    · by_cases h2 : lowerString (pySuffix f.name) ∈ supported_extensions
      · simp [load_files, List.filter_cons, h1, h2, ih]
      · have hf : load_file f = [] := by simp [load_file, h1, h2]
        simp [load_files, List.filter_cons, h1, h2, ih, hf]
    · have hf : load_file f = [] := by simp [load_file, h1]
      simp [load_files, List.filter_cons, h1, ih, hf]
